import Mathlib

/-!
Verification development for the FIGO-stage survival-analysis pipeline
(src/fit_cox_basic.py and src/summarize_figo.py).

The pandas DataFrame cells are embedded as the type Val below: a cell is a
missing value (NaN / pandas NA), a number (embedded as a rational), or a
string.  Tables are embedded either as structured row lists (for prepare,
whose column layout is fixed by the source) or as named column lists (for
fit_basic, which selects columns by name).
-/

namespace FigoSurv

/-- One pandas cell: missing (NaN / pd.NA), numeric, or string. -/
inductive Val where
  | na : Val
  | num (q : Rat) : Val
  | str (s : String) : Val
deriving DecidableEq, Repr

/-- Modelled from: decimal digit test used by numeric string parsing. -/
def isDigitChar (c : Char) : Bool := 48 ≤ c.toNat && c.toNat ≤ 57

def digitsToNat (l : List Char) : Nat := l.foldl (fun n c => n * 10 + (c.toNat - 48)) 0

def allDigits (l : List Char) : Bool := l.all isDigitChar

/-- Modelled from: the numeral grammar accepted by pandas to_numeric for
strings, simplified to plain decimal numerals (an optional sign, an integer
part, an optional fractional part).  Scientific notation and surrounding
whitespace are not modelled; no claim depends on them. -/
def parseNumChars (l : List Char) : Option Rat :=
  let ip := l.takeWhile (fun c => c != '.')
  let rest := l.dropWhile (fun c => c != '.')
  match rest with
  | [] => if !ip.isEmpty && allDigits ip then some ((digitsToNat ip : Int) : Rat) else none
  | _ :: frac =>
      if (!ip.isEmpty || !frac.isEmpty) && allDigits ip && allDigits frac
      then some ((digitsToNat ip : Rat) + (digitsToNat frac : Rat) / ((10 : Rat) ^ frac.length))
      else none

def parseNum (s : String) : Option Rat :=
  match s.toList with
  | [] => none
  | '-' :: rest => (parseNumChars rest).map (fun q => -q)
  | '+' :: rest => parseNumChars rest
  | l => parseNumChars l

/-- Modelled from: pandas to_numeric with errors set to coerce
(src/fit_cox_basic.py lines 32-33, src/summarize_figo.py line 15):
numbers pass through, parseable strings become numbers, missing values and
unparseable strings become NaN (here: none). -/
def toNumCoerce (v : Val) : Option Rat :=
  match v with
  | Val.num q => some q
  | Val.str s => parseNum s
  | Val.na => none

/-- Modelled from: pandas to_numeric with errors set to raise
(src/fit_cox_basic.py line 43): numbers and NaN pass through unchanged,
parseable strings are converted to numbers, unparseable strings raise. -/
def toNumericRaise (v : Val) : Except String Val :=
  match v with
  | Val.num q => Except.ok (Val.num q)
  | Val.na => Except.ok Val.na
  | Val.str s =>
      match parseNum s with
      | some q => Except.ok (Val.num q)
      | none => Except.error ("Unable to parse string " ++ s)

def isNumV (v : Val) : Bool :=
  match v with
  | Val.num _ => true
  | _ => false

def hasStrV (v : Val) : Bool :=
  match v with
  | Val.str _ => true
  | _ => false

/-- One raw input row as both scripts read it (the case identifier column is
never used by either script and is omitted). -/
structure RawRow where
  figo_stage : Val
  survival_days : Val
  event : Val
deriving DecidableEq, Repr

/-- Modelled from src/fit_cox_basic.py line 8 and src/summarize_figo.py
line 11: the figo_stage column has the empty string replaced by pd.NA. -/
def stageFixRow (r : RawRow) : RawRow :=
  { r with figo_stage := if r.figo_stage = Val.str "" then Val.na else r.figo_stage }

/-- Translated from the inner function stage_group of prepare
(src/fit_cox_basic.py lines 11-16): exact match on the two labels, all
other cell values fall through to EarlyMid. -/
def stage_group (s : Val) : String :=
  if s = Val.str "Stage IIIC" then "IIIC"
  else if s = Val.str "Stage IV" then "IV"
  else "EarlyMid"

structure GroupedRow where
  figo_stage : Val
  stage_group : String
  survival_days : Val
  event : Val
deriving DecidableEq, Repr

/-- Modelled from src/fit_cox_basic.py line 17: the derived stage_group
column. -/
def addGroup (r : RawRow) : GroupedRow :=
  { figo_stage := r.figo_stage, stage_group := stage_group r.figo_stage,
    survival_days := r.survival_days, event := r.event }

/-- A row of the prepared table: survival_days and event have been coerced
to numbers (src/fit_cox_basic.py lines 32-34). -/
structure PrepRow where
  figo_stage : Val
  stage_group : String
  survival_days : Rat
  event : Rat
deriving DecidableEq, Repr

/-- Modelled from src/fit_cox_basic.py lines 32-34: coerce survival_days and
event, drop the row if either became missing. -/
def coerceRow (g : GroupedRow) : Option PrepRow :=
  match toNumCoerce g.survival_days, toNumCoerce g.event with
  | some d, some e =>
      some { figo_stage := g.figo_stage, stage_group := g.stage_group,
             survival_days := d, event := e }
  | _, _ => none

/-- The prepared table.  covarCols records which of the two renamed
indicator columns exist: pd.get_dummies (line 19) creates one column per
stage_group value present in the stage-filtered frame, sorted (EarlyMid,
IIIC, IV); the reference column IIIC is dropped (lines 21-22) and the
remaining columns are renamed (lines 25-30).  The per-row indicator cell
values are given by dummyEM and dummyIV below. -/
structure Prepared where
  rows : List PrepRow
  covarCols : List String
deriving DecidableEq, Repr

/-- Rows surviving the missing-stage filter (src/fit_cox_basic.py
lines 8-9): empty strings become NA, then NA stages are dropped. -/
def stageFiltered (l : List RawRow) : List RawRow :=
  (l.map stageFixRow).filter (fun r => r.figo_stage != Val.na)

/-- Translated from prepare (src/fit_cox_basic.py lines 5-35).  The input
frame is copied at line 6, so the caller's object is untouched (see
prepareCallerAfter). -/
def prepare (l : List RawRow) : Prepared :=
  let grouped := (stageFiltered l).map addGroup
  let hasEM := grouped.any (fun g => g.stage_group == "EarlyMid")
  let hasIV := grouped.any (fun g => g.stage_group == "IV")
  { rows := grouped.filterMap coerceRow,
    covarCols :=
      (if hasEM then ["stage_EarlyMid_vs_IIIC"] else [])
        ++ (if hasIV then ["stage_IV_vs_IIIC"] else []) }

/-- Modelled from pd.get_dummies cell semantics (src/fit_cox_basic.py
line 19): the stage_EarlyMid_vs_IIIC cell of a row is 1 exactly when that
row's stage_group is EarlyMid. -/
def dummyEM (r : PrepRow) : Rat := if r.stage_group = "EarlyMid" then 1 else 0

/-- Modelled from pd.get_dummies cell semantics (src/fit_cox_basic.py
line 19): the stage_IV_vs_IIIC cell of a row is 1 exactly when that row's
stage_group is IV. -/
def dummyIV (r : PrepRow) : Rat := if r.stage_group = "IV" then 1 else 0

/-- Modelled from src/fit_cox_basic.py line 6 (df = df.copy()): prepare
rebinds its local name to a copy and never writes through the caller's
frame, so its effect on the caller's object is the identity. -/
def prepareCallerAfter (l : List RawRow) : List RawRow := l

/-- The whole per-row pipeline of prepare as a single step function; used
to reason about the prepared row list. -/
def prepStep (r : RawRow) : Option PrepRow :=
  if (stageFixRow r).figo_stage == Val.na then none
  else coerceRow (addGroup (stageFixRow r))

/-!  The Cox fitter (src/fit_cox_basic.py lines 37-46).  fit_basic selects
columns by name from the frame it receives, so here a frame is a list of
named columns. -/

structure Table where
  cols : List (String × List Val)
deriving DecidableEq, Repr

def startsWithChars : List Char → List Char → Bool
  | _, [] => true
  | [], _ :: _ => false
  | c :: cs, p :: ps => c == p && startsWithChars cs ps

/-- Modelled from: Python str.startswith, used by the covariate column
selection at src/fit_cox_basic.py line 40. -/
def pyStartsWith (s pre : String) : Bool := startsWithChars s.toList pre.toList

/-- Translated from src/fit_cox_basic.py line 40: every column whose name
starts with stage_, except the raw grouping column stage_group itself, in
column order. -/
def covarNames (t : Table) : List String :=
  (t.cols.map Prod.fst).filter (fun n => pyStartsWith n "stage_" && n != "stage_group")

/-- Modelled from pd.to_numeric applied to one column with errors set to
raise (src/fit_cox_basic.py line 43): the first unparseable string cell
raises. -/
def coerceColVals : List Val → Except String (List Val)
  | [] => Except.ok []
  | v :: rest =>
      match toNumericRaise v with
      | Except.error e => Except.error e
      | Except.ok w =>
          match coerceColVals rest with
          | Except.error e => Except.error e
          | Except.ok ws => Except.ok (w :: ws)

/-- Translated from the loop at src/fit_cox_basic.py lines 41-43:
for each covariate column c, df becomes df with column c coerced in place
(df[c] = pd.to_numeric(df[c], errors=raise).  Non-covariate columns are
untouched.  The returned column list is the caller-visible state of the
frame after the loop. -/
def coerceCols : List (String × List Val) → Except String (List (String × List Val))
  | [] => Except.ok []
  | (n, vs) :: rest =>
      if pyStartsWith n "stage_" && n != "stage_group" then
        match coerceColVals vs with
        | Except.error e => Except.error e
        | Except.ok ws =>
            match coerceCols rest with
            | Except.error e => Except.error e
            | Except.ok rest2 => Except.ok ((n, ws) :: rest2)
      else
        match coerceCols rest with
        | Except.error e => Except.error e
        | Except.ok rest2 => Except.ok ((n, vs) :: rest2)

/-- Modelled from pandas column selection df[name] (first matching column);
a missing column raises a KeyError. -/
def getColE (t : Table) (name : String) : Except String (List Val) :=
  match t.cols.lookup name with
  | some vs => Except.ok vs
  | none => Except.error ("KeyError: " ++ name)

def getCovCols (t : Table) : List String → Except String (List (String × List Val))
  | [] => Except.ok []
  | c :: rest =>
      match getColE t c with
      | Except.error e => Except.error e
      | Except.ok vs =>
          match getCovCols t rest with
          | Except.error e => Except.error e
          | Except.ok r => Except.ok ((c, vs) :: r)

/-- The fitted-model result object: one coefficient per covariate, the
partial log-likelihood and Harrell concordance index. -/
structure FittedModel where
  params : List (String × Rat)
  logLik : Rat
  cIndex : Rat
deriving DecidableEq, Repr

/-- Modelled from the spec: CoxPHFitter.fit of the external lifelines
library (not part of this repository).  Only the interface behaviour the
claims depend on is modelled, following spec section 4.2: the fit errors on
an empty dataset and on non-numeric duration, event or covariate data, and
otherwise succeeds, returning one coefficient per covariate column and, in
the degenerate zero-covariate case, a trivial null model with an empty
coefficient list.  The numeric results of the partial-likelihood
optimisation (coefficient values, log-likelihood, concordance) are
real-valued and are not modelled; they are placeholders here and no claim
reads them. -/
def coxFit (dur ev : List Val) (covCols : List (String × List Val)) :
    Except String FittedModel :=
  if dur.isEmpty then Except.error "ValueError: empty dataframe"
  else if !(dur.all isNumV) then Except.error "TypeError: durations not numeric"
  else if !(ev.all isNumV) then Except.error "TypeError: events not numeric"
  else if !(covCols.all (fun c => c.snd.all isNumV)) then
    Except.error "TypeError: covariates not numeric"
  else Except.ok { params := covCols.map (fun c => (c.fst, (0 : Rat))), logLik := 0, cIndex := 0 }

/-- Translated from fit_basic (src/fit_cox_basic.py lines 37-46): select
the covariate names, coerce the covariate columns in place, select the
survival_days, event and covariate columns, fit.  The Table in the result
is the caller-visible state of the frame fit_basic received, after the
in-place coercion loop of lines 41-43. -/
def fitBasic (t : Table) : Except String (FittedModel × List String × Table) :=
  let covars := covarNames t
  match coerceCols t.cols with
  | Except.error e => Except.error e
  | Except.ok cols2 =>
      let tAfter : Table := { cols := cols2 }
      match getColE tAfter "survival_days" with
      | Except.error e => Except.error e
      | Except.ok dur =>
          match getColE tAfter "event" with
          | Except.error e => Except.error e
          | Except.ok ev =>
              match getCovCols tAfter covars with
              | Except.error e => Except.error e
              | Except.ok covCols =>
                  match coxFit dur ev covCols with
                  | Except.error e => Except.error e
                  | Except.ok m => Except.ok (m, covars, tAfter)

/-!  The model report (src/fit_cox_basic.py lines 48-98).  Python float
formatting (:.4f, :.3f, :.3g) is not modelled; the report builder is
parameterised by the three numeric formatters, and every claim about the
report is proved for all formatters. -/

/-- One row of cph.summary.loc[covars] as used at lines 60-67. -/
structure CovarSummary where
  name : String
  coef : Rat
  hr : Rat
  ciLower : Rat
  ciUpper : Rat
  p : Rat
deriving DecidableEq, Repr

/-- Translated from the f-string at src/fit_cox_basic.py line 67. -/
def coefLine (fmt4 fmt3 fmtG : Rat → String) (c : CovarSummary) : String :=
  "  " ++ c.name ++ ": beta=" ++ fmt4 c.coef ++ " HR=" ++ fmt3 c.hr
    ++ " 95%CI=(" ++ fmt3 c.ciLower ++ ", " ++ fmt3 c.ciUpper ++ ") p=" ++ fmtG c.p

/-- Translated from the report assembly of main (src/fit_cox_basic.py
lines 55-96).  The diagnostic argument embeds the try block of lines 78-93:
ok carries the lines the block appended, error carries the message of the
exception caught at line 95, which main records as a single failure line.
main then writes the joined lines unconditionally (line 97). -/
def buildReport (fmt4 fmt3 fmtG : Rat → String) (summary : List CovarSummary)
    (cIndex logLik : Rat) (covars : List String)
    (diag : Except String (List String)) : List String :=
  ["基本Cox比例ハザードモデル（単変量: 病期グループ）",
   "参照カテゴリ: Stage IIIC",
   "グループ化: EarlyMid = (I/II/IIIA/IIIB/IIC など), IIIC, IV",
   "",
   "係数推定 (β), HR=exp(β), 95%CI, p値:"]
  ++ summary.map (coefLine fmt4 fmt3 fmtG)
  ++ ["",
      "C-index: " ++ fmt3 cIndex,
      "Log-likelihood: " ++ fmt3 logLik,
      "AIC (approx): " ++ fmt3 (-2 * logLik + 2 * (covars.length : Rat)),
      ""]
  ++ (match diag with
      | Except.ok dlines => dlines
      | Except.error e => ["PH検定実行失敗: " ++ e])

/-- Translated from src/fit_cox_basic.py line 97: the text written to the
output file. -/
def writtenReport (fmt4 fmt3 fmtG : Rat → String) (summary : List CovarSummary)
    (cIndex logLik : Rat) (covars : List String)
    (diag : Except String (List String)) : String :=
  String.intercalate "\n" (buildReport fmt4 fmt3 fmtG summary cIndex logLik covars diag)

/-!  The cohort summary (src/summarize_figo.py). -/

/-- Modelled from: Python int() applied to a float: truncation toward
zero. -/
def pyInt (q : Rat) : Int := if 0 ≤ q then q.floor else q.ceil

/-- Translated from src/summarize_figo.py line 12: total = len(df); every
row counts, including rows with missing stage. -/
def sumTotal (rows : List RawRow) : Nat := rows.length

/-- Translated from src/summarize_figo.py lines 15-16: the event column is
coerced with errors=coerce, then summed; pandas sum skips NaN, so a row
whose event did not parse contributes nothing. -/
def sumEvents (rows : List RawRow) : Int :=
  pyInt ((rows.filterMap (fun r => toNumCoerce r.event)).sum)

/-- Translated from src/summarize_figo.py line 17: censored = total -
events. -/
def sumCensored (rows : List RawRow) : Int :=
  (sumTotal rows : Int) - sumEvents rows

/-- The numeric cells of a column, in order; NaN cells are skipped, string
cells contribute nothing here (they are accounted for by colHasStr). -/
def colNums (xs : List Val) : List Rat :=
  xs.filterMap (fun v => match v with | Val.num q => some q | _ => none)

def colHasStr (xs : List Val) : Bool := xs.any hasStrV

def listMedian (l : List Rat) : Option Rat :=
  let s := List.insertionSort (fun a b : Rat => a ≤ b) l
  let n := s.length
  if n = 0 then none
  else if n % 2 = 1 then s.get? (n / 2)
  else
    match s.get? (n / 2 - 1), s.get? (n / 2) with
    | some a, some b => some ((a + b) / 2)
    | _, _ => none

/-- Modelled from: pandas Series.median as used at src/summarize_figo.py
lines 27 and 29-32: NaN cells are skipped; an object-dtype column (any
string cell) raises; an empty or all-NaN column yields NaN, on which the
int() conversion of the script raises - both failure modes are errors
here. -/
def seriesMedian (xs : List Val) : Except String Rat :=
  if colHasStr xs then Except.error "TypeError: cannot compute median of object column"
  else
    match listMedian (colNums xs) with
    | some m => Except.ok m
    | none => Except.error "ValueError: cannot convert NaN to integer"

/-- Modelled from: pandas Series.min (src/summarize_figo.py line 34 and the
per-stage aggregation), with the same NaN and object-dtype treatment as
seriesMedian. -/
def seriesMin (xs : List Val) : Except String Rat :=
  if colHasStr xs then Except.error "TypeError: cannot compare str and number"
  else
    match (colNums xs).min? with
    | some m => Except.ok m
    | none => Except.error "ValueError: cannot convert NaN to integer"

/-- Modelled from: pandas Series.max (src/summarize_figo.py line 35 and the
per-stage aggregation), with the same NaN and object-dtype treatment as
seriesMedian. -/
def seriesMax (xs : List Val) : Except String Rat :=
  if colHasStr xs then Except.error "TypeError: cannot compare str and number"
  else
    match (colNums xs).max? with
    | some m => Except.ok m
    | none => Except.error "ValueError: cannot convert NaN to integer"

def survCells (rows : List RawRow) : List Val := rows.map (fun r => r.survival_days)

/-- Translated from src/summarize_figo.py line 27: overall median of
survival_days. -/
def overallMedianStat (rows : List RawRow) : Except String Rat :=
  seriesMedian (survCells rows)

/-- Translated from src/summarize_figo.py line 34. -/
def overallMinStat (rows : List RawRow) : Except String Rat :=
  seriesMin (survCells rows)

/-- Translated from src/summarize_figo.py line 35. -/
def overallMaxStat (rows : List RawRow) : Except String Rat :=
  seriesMax (survCells rows)

/-- The survival_days cells of one stage group of the groupby at
src/summarize_figo.py lines 29-32; the figo_stage column has already had
empty strings replaced by NA (line 11). -/
def groupSurvCells (rows : List RawRow) (key : Val) : List Val :=
  survCells ((rows.map stageFixRow).filter (fun r => r.figo_stage == key))

/-- Translated from the per-stage median aggregation at
src/summarize_figo.py lines 29-32. -/
def groupMedianStat (rows : List RawRow) (key : Val) : Except String Rat :=
  seriesMedian (groupSurvCells rows key)

def groupMinStat (rows : List RawRow) (key : Val) : Except String Rat :=
  seriesMin (groupSurvCells rows key)

def groupMaxStat (rows : List RawRow) (key : Val) : Except String Rat :=
  seriesMax (groupSurvCells rows key)

/-- Modelled from: the default NA tokens of pandas read_csv, which both
scripts use to load the dataset (src/fit_cox_basic.py line 52,
src/summarize_figo.py line 8). -/
def naTokens : List String :=
  ["", "#N/A", "#N/A N/A", "#NA", "-1.#IND", "-1.#QNAN", "-NaN", "-nan",
   "1.#IND", "1.#QNAN", "<NA>", "N/A", "NA", "NULL", "NaN", "None", "n/a",
   "nan", "null"]

/-- Modelled from: pandas read_csv column ingestion.  NA tokens become NaN
in every case; if all remaining cells of the column parse as numbers the
column is numeric, otherwise it stays an object column of strings. -/
def readCsvCol (cells : List String) : List Val :=
  if cells.all (fun s => naTokens.contains s || (parseNum s).isSome) then
    cells.map (fun s =>
      if naTokens.contains s then Val.na
      else match parseNum s with
        | some q => Val.num q
        | none => Val.na)
  else
    cells.map (fun s => if naTokens.contains s then Val.na else Val.str s)

/-!  Lemmas. -/

/-- The defect predicate of the row-exclusion claim: missing or
empty-string stage, or survival duration or event that to_numeric cannot
turn into a number. -/
def defectB (r : RawRow) : Bool :=
  (r.figo_stage == Val.na || r.figo_stage == Val.str "")
    || (toNumCoerce r.survival_days).isNone
    || (toNumCoerce r.event).isNone

theorem filterMap_filter_pipeline (m : List RawRow) :
    ((m.filter (fun r => r.figo_stage != Val.na)).map addGroup).filterMap coerceRow
      = m.filterMap
          (fun r => if r.figo_stage == Val.na then none else coerceRow (addGroup r)) := by
  induction m with
  | nil => rfl
  | cons a m ih =>
      by_cases h : a.figo_stage = Val.na
      · simp [List.filter_cons, List.filterMap_cons, h, ih]
      · simp [List.filter_cons, List.filterMap_cons, h, bne_iff_ne, ih]

theorem prepare_rows_eq (l : List RawRow) :
    (prepare l).rows = l.filterMap prepStep := by
  show ((stageFiltered l).map addGroup).filterMap coerceRow = l.filterMap prepStep
  unfold stageFiltered
  rw [filterMap_filter_pipeline, List.filterMap_map]
  rfl

theorem prepStep_isSome (r : RawRow) : (prepStep r).isSome = !defectB r := by
  unfold prepStep defectB stageFixRow coerceRow addGroup
  by_cases h0 : r.figo_stage = Val.str ""
  · simp [h0]
  · by_cases h1 : r.figo_stage = Val.na
    · simp [h0, h1]
    · simp only [h0, if_false, beq_iff_eq, h1, beq_eq_false_iff_ne, ne_eq]
      cases hd : toNumCoerce r.survival_days with
      | none => simp [hd, h1, h0]
      | some d =>
          cases he : toNumCoerce r.event with
          | none => simp [hd, he, h1, h0]
          | some e => simp [hd, he, h1, h0]

theorem length_filterMap_prepStep (l : List RawRow) :
    (l.filterMap prepStep).length = (l.filter (fun r => !defectB r)).length := by
  induction l with
  | nil => rfl
  | cons a l ih =>
      have h := prepStep_isSome a
      cases hs : prepStep a with
      | none =>
          rw [hs] at h
          simp only [List.filterMap_cons, hs, List.filter_cons]
          have : (!defectB a) = false := by simpa using h.symm
          simp [this, ih]
      | some p =>
          rw [hs] at h
          simp only [List.filterMap_cons, hs, List.filter_cons]
          have : (!defectB a) = true := by simpa using h.symm
          simp [this, ih]

theorem length_filter_split {α : Type} (p : α → Bool) (l : List α) :
    (l.filter p).length + (l.filter (fun a => !p a)).length = l.length := by
  induction l with
  | nil => rfl
  | cons a l ih =>
      cases hpa : p a with
      | true =>
          simp only [List.filter_cons, hpa, Bool.not_true, if_true, if_false,
            Bool.false_eq_true, List.length_cons]
          omega
      | false =>
          simp only [List.filter_cons, hpa, Bool.not_false, if_true, if_false,
            Bool.false_eq_true, List.length_cons]
          omega

/-- C3: prepare excludes exactly the rows whose stage is missing or
empty-string, whose survival duration does not coerce to a number, or
whose event indicator does not coerce to a number, and keeps all other
rows: the prepared row count is the input count minus the count of the
union of the three defect sets, each defective row counted once. -/
theorem C3_prepare_row_count (l : List RawRow) :
    (prepare l).rows.length = l.length - (l.filter defectB).length
    ∧ (prepare l).rows.length = (l.filter (fun r => !defectB r)).length
    ∧ (l.filter defectB).length + (l.filter (fun r => !defectB r)).length = l.length := by
  have h2 : (prepare l).rows.length = (l.filter (fun r => !defectB r)).length := by
    rw [prepare_rows_eq, length_filterMap_prepStep]
  have h3 := length_filter_split defectB l
  exact ⟨by omega, h2, h3⟩

/-- C4: the stage-grouping function is total on string labels and maps each
label to exactly one of the three groups: the exact label Stage IIIC to
IIIC, the exact label Stage IV to IV, and every other label to
EarlyMid. -/
theorem C4_stage_group_total (s : String) :
    (stage_group (Val.str s) = "IIIC" ↔ s = "Stage IIIC")
    ∧ (stage_group (Val.str s) = "IV" ↔ s = "Stage IV")
    ∧ (stage_group (Val.str s) = "EarlyMid" ↔ (s ≠ "Stage IIIC" ∧ s ≠ "Stage IV"))
    ∧ (stage_group (Val.str s) = "IIIC" ∨ stage_group (Val.str s) = "IV"
        ∨ stage_group (Val.str s) = "EarlyMid") := by
  unfold stage_group
  by_cases h1 : s = "Stage IIIC"
  · subst h1
    refine ⟨by simp, ?_, ?_, ?_⟩
    · simp only [Val.str.injEq, if_pos rfl]
      constructor
      · intro h; exact absurd h (by decide)
      · intro h; exact absurd h (by decide)
    · simp only [Val.str.injEq, if_pos rfl]
      constructor
      · intro h; exact absurd h (by decide)
      · intro h; exact absurd rfl h.1
    · simp
  · by_cases h2 : s = "Stage IV"
    · subst h2
      have hne : Val.str "Stage IV" ≠ Val.str "Stage IIIC" := by decide
      refine ⟨?_, ?_, ?_, ?_⟩
      · simp only [if_neg hne, Val.str.injEq, if_pos rfl]
        constructor
        · intro h; exact absurd h (by decide)
        · intro h; exact absurd h (by decide)
      · simp [if_neg hne]
      · simp only [if_neg hne, Val.str.injEq, if_pos rfl]
        constructor
        · intro h; exact absurd h (by decide)
        · intro h; exact absurd rfl h.2
      · simp [if_neg hne]
    · have hne1 : Val.str s ≠ Val.str "Stage IIIC" := by
        intro h; exact h1 (Val.str.injEq _ _ ▸ congrArg (fun v => v) h ▸ rfl)
      have hne2 : Val.str s ≠ Val.str "Stage IV" := by
        intro h; exact h2 (Val.str.injEq _ _ ▸ congrArg (fun v => v) h ▸ rfl)
      refine ⟨?_, ?_, ?_, ?_⟩
      · simp only [if_neg hne1, if_neg hne2]
        constructor
        · intro h; exact absurd h (by decide)
        · intro h; exact absurd h h1
      · simp only [if_neg hne1, if_neg hne2]
        constructor
        · intro h; exact absurd h (by decide)
        · intro h; exact absurd h h2
      · simp [if_neg hne1, if_neg hne2, h1, h2]
      · right; right; rw [if_neg hne1, if_neg hne2]

theorem dummy_sum_le_one (r : PrepRow) : dummyEM r + dummyIV r ≤ 1 := by
  unfold dummyEM dummyIV
  by_cases h1 : r.stage_group = "EarlyMid"
  · have h2 : r.stage_group ≠ "IV" := by rw [h1]; decide
    rw [if_pos h1, if_neg h2]; norm_num
  · rw [if_neg h1]
    by_cases h2 : r.stage_group = "IV"
    · rw [if_pos h2]; norm_num
    · rw [if_neg h2]; norm_num

theorem stage_group_cases (v : Val) :
    stage_group v = "IIIC" ∨ stage_group v = "IV" ∨ stage_group v = "EarlyMid" := by
  unfold stage_group
  by_cases h1 : v = Val.str "Stage IIIC"
  · simp [h1]
  · by_cases h2 : v = Val.str "Stage IV"
    · simp [h1, h2]
    · simp [h1, h2]

theorem coerceRow_stage_group {g : GroupedRow} {r : PrepRow}
    (h : coerceRow g = some r) : r.stage_group = g.stage_group := by
  unfold coerceRow at h
  cases hd : toNumCoerce g.survival_days with
  | none => rw [hd] at h; cases h
  | some d =>
      cases he : toNumCoerce g.event with
      | none => rw [hd, he] at h; cases h
      | some e =>
          rw [hd, he] at h
          cases h
          rfl

theorem mem_prepare_rows {l : List RawRow} {r : PrepRow}
    (h : r ∈ (prepare l).rows) :
    ∃ g ∈ (stageFiltered l).map addGroup, coerceRow g = some r := by
  have : (prepare l).rows = ((stageFiltered l).map addGroup).filterMap coerceRow := rfl
  rw [this] at h
  exact List.mem_filterMap.mp h

theorem em_col_mem_iff (l : List RawRow) :
    "stage_EarlyMid_vs_IIIC" ∈ (prepare l).covarCols ↔
      ((stageFiltered l).map addGroup).any (fun g => g.stage_group == "EarlyMid") = true := by
  show _ ∈ ((if ((stageFiltered l).map addGroup).any (fun g => g.stage_group == "EarlyMid")
      then ["stage_EarlyMid_vs_IIIC"] else [])
    ++ (if ((stageFiltered l).map addGroup).any (fun g => g.stage_group == "IV")
      then ["stage_IV_vs_IIIC"] else [])) ↔ _
  cases hEM : ((stageFiltered l).map addGroup).any (fun g => g.stage_group == "EarlyMid") with
  | true => simp
  | false =>
      cases hIV : ((stageFiltered l).map addGroup).any (fun g => g.stage_group == "IV") with
      | true => simp
      | false => simp

theorem iv_col_mem_iff (l : List RawRow) :
    "stage_IV_vs_IIIC" ∈ (prepare l).covarCols ↔
      ((stageFiltered l).map addGroup).any (fun g => g.stage_group == "IV") = true := by
  show _ ∈ ((if ((stageFiltered l).map addGroup).any (fun g => g.stage_group == "EarlyMid")
      then ["stage_EarlyMid_vs_IIIC"] else [])
    ++ (if ((stageFiltered l).map addGroup).any (fun g => g.stage_group == "IV")
      then ["stage_IV_vs_IIIC"] else [])) ↔ _
  cases hEM : ((stageFiltered l).map addGroup).any (fun g => g.stage_group == "EarlyMid") with
  | true =>
      cases hIV : ((stageFiltered l).map addGroup).any (fun g => g.stage_group == "IV") with
      | true => simp
      | false => simp
  | false =>
      cases hIV : ((stageFiltered l).map addGroup).any (fun g => g.stage_group == "IV") with
      | true => simp
      | false => simp

/-- C5 (amended): in every prepared row the indicator cells are mutually
exclusive and sum to at most 1 - an EarlyMid row has
stage_EarlyMid_vs_IIIC = 1 and stage_IV_vs_IIIC = 0, an IV row the
converse, a reference IIIC row has both 0, and the indicator column of any
group that occurs in a prepared row is present; an indicator column is
omitted exactly when its group has zero members among the rows that
survive the missing-stage filter (the column-presence decision precedes
the numeric-coercion filter). -/
theorem C5_indicator_columns :
    (∀ (l : List RawRow) (r : PrepRow), r ∈ (prepare l).rows →
       (r.stage_group = "EarlyMid" ∨ r.stage_group = "IIIC" ∨ r.stage_group = "IV")
       ∧ (r.stage_group = "EarlyMid" → dummyEM r = 1 ∧ dummyIV r = 0)
       ∧ (r.stage_group = "IV" → dummyEM r = 0 ∧ dummyIV r = 1)
       ∧ (r.stage_group = "IIIC" → dummyEM r = 0 ∧ dummyIV r = 0)
       ∧ dummyEM r + dummyIV r ≤ 1
       ∧ (r.stage_group = "EarlyMid" → "stage_EarlyMid_vs_IIIC" ∈ (prepare l).covarCols)
       ∧ (r.stage_group = "IV" → "stage_IV_vs_IIIC" ∈ (prepare l).covarCols))
    ∧ (∀ l : List RawRow,
        ("stage_EarlyMid_vs_IIIC" ∈ (prepare l).covarCols ↔
          ∃ g ∈ (stageFiltered l).map addGroup, g.stage_group = "EarlyMid")
        ∧ ("stage_IV_vs_IIIC" ∈ (prepare l).covarCols ↔
          ∃ g ∈ (stageFiltered l).map addGroup, g.stage_group = "IV")) := by
  constructor
  · intro l r hr
    obtain ⟨g, hg, hcr⟩ := mem_prepare_rows hr
    have hsg : r.stage_group = g.stage_group := coerceRow_stage_group hcr
    have hgc : g.stage_group = stage_group g.figo_stage := by
      rcases List.mem_map.mp hg with ⟨a, _, rfl⟩
      rfl
    have hcases : r.stage_group = "IIIC" ∨ r.stage_group = "IV"
        ∨ r.stage_group = "EarlyMid" := by
      rw [hsg, hgc]; exact stage_group_cases _
    refine ⟨by tauto, ?_, ?_, ?_, ?_, ?_, ?_⟩
    · intro h; rw [dummyEM, dummyIV, h]; decide
    · intro h; rw [dummyEM, dummyIV, h]; decide
    · intro h; rw [dummyEM, dummyIV, h]; decide
    · exact dummy_sum_le_one r
    · intro h
      rw [em_col_mem_iff]
      exact List.any_eq_true.mpr ⟨g, hg, by rw [← hsg, h]; rfl⟩
    · intro h
      rw [iv_col_mem_iff]
      exact List.any_eq_true.mpr ⟨g, hg, by rw [← hsg, h]; rfl⟩
  · intro l
    constructor
    · rw [em_col_mem_iff, List.any_eq_true]
      constructor
      · rintro ⟨g, hg, hb⟩; exact ⟨g, hg, by simpa using hb⟩
      · rintro ⟨g, hg, hb⟩; exact ⟨g, hg, by simpa using hb⟩
    · rw [iv_col_mem_iff, List.any_eq_true]
      constructor
      · rintro ⟨g, hg, hb⟩; exact ⟨g, hg, by simpa using hb⟩
      · rintro ⟨g, hg, hb⟩; exact ⟨g, hg, by simpa using hb⟩

/-- The single-row input of the C5 witness. -/
def lC5W : List RawRow :=
  [{ figo_stage := Val.str "Stage IV", survival_days := Val.num 3, event := Val.num 1 }]

/-- The prepared row of the C5 witness. -/
def rowC5W : PrepRow :=
  { figo_stage := Val.str "Stage IV", stage_group := "IV", survival_days := 3, event := 1 }

theorem C5_indicator_witness :
    (dummyEM rowC5W = 0 ∧ dummyIV rowC5W = 1)
    ∧ "stage_IV_vs_IIIC" ∈ (prepare lC5W).covarCols :=
  ⟨(C5_indicator_columns.1 lC5W rowC5W (by decide)).2.2.1 rfl,
   (C5_indicator_columns.1 lC5W rowC5W (by decide)).2.2.2.2.2.2 rfl⟩

/-- Input refuting the omission clause of C5 as stated: the Stage IA row is
dropped by the numeric filter (its survival_days does not parse), so the
EarlyMid group has zero members in the prepared output, yet the
stage_EarlyMid_vs_IIIC column exists because the column set was decided
before the numeric filter. -/
def exC5 : List RawRow :=
  [{ figo_stage := Val.str "Stage IA", survival_days := Val.str "N/A", event := Val.num 1 },
   { figo_stage := Val.str "Stage IIIC", survival_days := Val.num 10, event := Val.num 1 }]

/-- C5 counterexample: in the prepared output of exC5 the EarlyMid group
has zero members, yet the stage_EarlyMid_vs_IIIC indicator column is not
omitted. -/
theorem C5_counterexample :
    "stage_EarlyMid_vs_IIIC" ∈ (prepare exC5).covarCols
    ∧ (prepare exC5).rows.all (fun r => r.stage_group != "EarlyMid") = true := by
  constructor
  · show "stage_EarlyMid_vs_IIIC" ∈ (prepare exC5).covarCols
    have : (prepare exC5).covarCols = ["stage_EarlyMid_vs_IIIC"] := by decide
    rw [this]
    exact List.mem_singleton.mpr rfl
  · decide

theorem toNumericRaise_ok_of_not_str {v : Val} (h : hasStrV v = false) :
    toNumericRaise v = Except.ok v := by
  cases v with
  | na => rfl
  | num q => rfl
  | str s => cases h

theorem coerceColVals_id {vs : List Val} (h : ∀ v ∈ vs, hasStrV v = false) :
    coerceColVals vs = Except.ok vs := by
  induction vs with
  | nil => rfl
  | cons a vs ih =>
      have ha := toNumericRaise_ok_of_not_str (h a (List.mem_cons_self a vs))
      have hrest := ih (fun v hv => h v (List.mem_cons_of_mem a hv))
      unfold coerceColVals
      rw [ha, hrest]

/-- Whether no selected covariate column of the frame holds any string
cell. -/
def noStrCovar (t : Table) : Bool :=
  t.cols.all (fun p =>
    !(pyStartsWith p.fst "stage_" && p.fst != "stage_group")
      || p.snd.all (fun v => !hasStrV v))

theorem coerceCols_id {cols : List (String × List Val)}
    (h : ∀ p ∈ cols, (pyStartsWith p.fst "stage_" && p.fst != "stage_group") = true →
      ∀ v ∈ p.snd, hasStrV v = false) :
    coerceCols cols = Except.ok cols := by
  induction cols with
  | nil => rfl
  | cons a cols ih =>
      obtain ⟨n, vs⟩ := a
      have hrest : coerceCols cols = Except.ok cols :=
        ih (fun p hp => h p (List.mem_cons_of_mem _ hp))
      unfold coerceCols
      cases hpred : (pyStartsWith n "stage_" && n != "stage_group") with
      | true =>
          have hvs : coerceColVals vs = Except.ok vs :=
            coerceColVals_id (h (n, vs) (List.mem_cons_self _ _) hpred)
          simp [hvs, hrest]
      | false => simp [hrest]

theorem fitBasic_ok_parts {t : Table} {m : FittedModel} {covs : List String}
    {t2 : Table} (h : fitBasic t = Except.ok (m, covs, t2)) :
    covs = covarNames t ∧ coerceCols t.cols = Except.ok t2.cols := by
  unfold fitBasic at h
  split at h
  next e hc => cases h
  next cols2 hc =>
    dsimp only at h
    split at h
    next e hd => cases h
    next dur hd =>
      split at h
      next e he => cases h
      next ev he =>
        split at h
        next e hcv => cases h
        next covCols hcv =>
          split at h
          next e hcf => cases h
          next mm hcf =>
            injection h with h1
            injection h1 with hm h2
            injection h2 with hcovs ht2
            refine ⟨hcovs.symm, ?_⟩
            rw [← ht2]
            exact hc

theorem fitBasic_error_of_coerce {t : Table} {e : String}
    (h : coerceCols t.cols = Except.error e) : fitBasic t = Except.error e := by
  unfold fitBasic
  rw [h]

/-- C2 (amended): prepare operates on a copy and leaves the caller's input
unchanged; fit leaves the table it receives unchanged whenever the
selected stage_ covariate columns contain no string cells (in particular
for tables produced by prepare, whose indicator columns are numeric).  In
general fit coerces the covariate columns in place, so the caller's object
can change - see the counterexample. -/
theorem C2_no_mutation_amended :
    (∀ l : List RawRow, prepareCallerAfter l = l)
    ∧ (∀ t : Table, noStrCovar t = true → coerceCols t.cols = Except.ok t.cols)
    ∧ (∀ (t : Table) (m : FittedModel) (covs : List String) (t2 : Table),
        noStrCovar t = true → fitBasic t = Except.ok (m, covs, t2) → t2 = t) := by
  have hmain : ∀ t : Table, noStrCovar t = true → coerceCols t.cols = Except.ok t.cols := by
    intro t hns
    apply coerceCols_id
    intro p hp hpred v hv
    have := List.all_eq_true.mp hns p hp
    rw [hpred] at this
    simp only [Bool.not_true, Bool.false_or] at this
    have := List.all_eq_true.mp this v hv
    simpa using this
  refine ⟨fun l => rfl, hmain, ?_⟩
  intro t m covs t2 hns hfit
  have h2 := (fitBasic_ok_parts hfit).2
  rw [hmain t hns] at h2
  injection h2 with h3
  cases t
  cases t2
  simpa using h3.symm

/-- The table of the C2 witness: its single stage_ covariate column is
already numeric, so fit leaves the caller's frame unchanged. -/
def tblC2W : Table :=
  { cols := [("survival_days", [Val.num 10, Val.num 20]),
             ("event", [Val.num 1, Val.num 0]),
             ("stage_IV_vs_IIIC", [Val.num 1, Val.num 0])] }

theorem C2_no_mutation_witness :
    noStrCovar tblC2W = true ∧ coerceCols tblC2W.cols = Except.ok tblC2W.cols :=
  ⟨by decide, C2_no_mutation_amended.2.1 tblC2W (by decide)⟩

/-- Input refuting C2 as stated: a frame whose stage_ covariate column
stores the numbers as strings. -/
def tblC2 : Table :=
  { cols := [("survival_days", [Val.num 100, Val.num 200, Val.num 300, Val.num 400]),
             ("event", [Val.num 1, Val.num 1, Val.num 1, Val.num 0]),
             ("stage_IV_vs_IIIC", [Val.str "1", Val.str "0", Val.str "1", Val.str "0"])] }

/-- The caller-visible state of tblC2 after fit_basic: the covariate column
was coerced in place. -/
def tblC2After : Table :=
  { cols := [("survival_days", [Val.num 100, Val.num 200, Val.num 300, Val.num 400]),
             ("event", [Val.num 1, Val.num 1, Val.num 1, Val.num 0]),
             ("stage_IV_vs_IIIC", [Val.num 1, Val.num 0, Val.num 1, Val.num 0])] }

/-- C2 counterexample: fit_basic succeeds on tblC2 and the caller's table
after the call differs from the table before the call, refuting the claim
that every stage of the pipeline leaves the table it receives unchanged. -/
theorem C2_counterexample :
    (fitBasic tblC2).toOption.map (fun x => x.2.2) = some tblC2After
    ∧ tblC2After ≠ tblC2 := by
  constructor
  · decide
  · decide

theorem toNumericRaise_error_of_bad {v : Val} (hs : hasStrV v = true)
    (hc : toNumCoerce v = none) : ∃ e, toNumericRaise v = Except.error e := by
  cases v with
  | na => cases hs
  | num q => cases hs
  | str s =>
      refine ⟨"Unable to parse string " ++ s, ?_⟩
      simp only [toNumCoerce] at hc
      simp only [toNumericRaise, hc]

theorem coerceColVals_error {vs : List Val} {v : Val} (hm : v ∈ vs)
    (hb : ∃ e, toNumericRaise v = Except.error e) :
    ∃ e, coerceColVals vs = Except.error e := by
  induction vs with
  | nil => cases hm
  | cons a vs ih =>
      cases ha : toNumericRaise a with
      | error e => exact ⟨e, by unfold coerceColVals; rw [ha]⟩
      | ok w =>
          rcases List.mem_cons.mp hm with rfl | hmem
          · obtain ⟨e, he⟩ := hb
            rw [ha] at he
            cases he
          · obtain ⟨e, he⟩ := ih hmem
            refine ⟨e, ?_⟩
            unfold coerceColVals
            rw [ha, he]

theorem coerceCols_error {cols : List (String × List Val)} {n : String}
    {col : List Val} (hm : (n, col) ∈ cols)
    (hpred : (pyStartsWith n "stage_" && n != "stage_group") = true)
    (hb : ∃ e, coerceColVals col = Except.error e) :
    ∃ e, coerceCols cols = Except.error e := by
  induction cols with
  | nil => cases hm
  | cons a cols ih =>
      obtain ⟨n0, vs0⟩ := a
      rcases List.mem_cons.mp hm with heq | hmem
      · obtain ⟨hn, hv⟩ := Prod.mk.injEq .. ▸ heq
        subst hn
        subst hv
        obtain ⟨e, he⟩ := hb
        refine ⟨e, ?_⟩
        unfold coerceCols
        rw [hpred, he]
        simp
      · cases hpred0 : (pyStartsWith n0 "stage_" && n0 != "stage_group") with
        | true =>
            cases hv0 : coerceColVals vs0 with
            | error e => exact ⟨e, by unfold coerceCols; rw [hpred0, hv0]; simp⟩
            | ok ws =>
                obtain ⟨e, he⟩ := ih hmem
                refine ⟨e, ?_⟩
                unfold coerceCols
                rw [hpred0, hv0, he]
                simp
        | false =>
            obtain ⟨e, he⟩ := ih hmem
            refine ⟨e, ?_⟩
            unfold coerceCols
            rw [hpred0, he]
            simp

/-- C6 (amended): the fitter's covariate set is exactly the columns of the
table whose name starts with stage_, excluding the raw grouping column
stage_group itself; a selected covariate cell that cannot be parsed as a
number makes fit fail fast with an error.  (A numeric value stored as a
string, however, is silently coerced in place rather than rejected - see
the counterexample.) -/
theorem C6_covariate_selection :
    (∀ (t : Table) (m : FittedModel) (covs : List String) (t2 : Table),
        fitBasic t = Except.ok (m, covs, t2) →
        ∀ c : String, c ∈ covs ↔
          (c ∈ t.cols.map Prod.fst ∧ pyStartsWith c "stage_" = true ∧ c ≠ "stage_group"))
    ∧ (∀ (t : Table) (n : String) (col : List Val) (v : Val),
        (n, col) ∈ t.cols → pyStartsWith n "stage_" = true → n ≠ "stage_group" →
        v ∈ col → hasStrV v = true → toNumCoerce v = none →
        ∃ e, fitBasic t = Except.error e) := by
  constructor
  · intro t m covs t2 hfit c
    have hcovs := (fitBasic_ok_parts hfit).1
    subst hcovs
    unfold covarNames
    rw [List.mem_filter]
    constructor
    · rintro ⟨hmem, hp⟩
      have := Bool.and_eq_true .. ▸ hp
      exact ⟨hmem, this.1, bne_iff_ne .. |>.mp this.2⟩
    · rintro ⟨hmem, hp, hne⟩
      exact ⟨hmem, by rw [Bool.and_eq_true]; exact ⟨hp, bne_iff_ne .. |>.mpr hne⟩⟩
  · intro t n col v hm hp hne hv hs hc
    have hpred : (pyStartsWith n "stage_" && n != "stage_group") = true := by
      rw [Bool.and_eq_true]
      exact ⟨hp, bne_iff_ne .. |>.mpr hne⟩
    obtain ⟨e, he⟩ :=
      coerceCols_error hm hpred (coerceColVals_error hv (toNumericRaise_error_of_bad hs hc))
    exact ⟨e, fitBasic_error_of_coerce he⟩

/-- The table of the C6 witness: the covariate column holds an unparseable
string, so fit fails fast. -/
def tblC6W : Table :=
  { cols := [("survival_days", [Val.num 3]),
             ("event", [Val.num 1]),
             ("stage_EarlyMid_vs_IIIC", [Val.str "N/A"])] }

theorem C6_covariate_selection_witness :
    ∃ e, fitBasic tblC6W = Except.error e :=
  C6_covariate_selection.2 tblC6W "stage_EarlyMid_vs_IIIC" [Val.str "N/A"]
    (Val.str "N/A") (by decide) (by decide) (by decide) (by decide) (by decide) (by decide)

/-- Input refuting C6 as stated: the selected covariate column holds
non-numeric values (the numbers are stored as strings), yet fit succeeds
and silently coerces them instead of failing with a type error. -/
def tblC6 : Table :=
  { cols := [("survival_days", [Val.num 1, Val.num 2, Val.num 3]),
             ("event", [Val.num 1, Val.num 0, Val.num 1]),
             ("stage_EarlyMid_vs_IIIC", [Val.str "0", Val.str "1", Val.str "0"])] }

/-- C6 counterexample: tblC6 has a selected covariate column containing
non-numeric (string) values, and fit succeeds on it. -/
theorem C6_counterexample :
    tblC6.cols.any
      (fun p => pyStartsWith p.fst "stage_" && p.fst != "stage_group"
        && p.snd.any hasStrV) = true
    ∧ (fitBasic tblC6).isOk = true := by
  constructor
  · decide
  · decide

/-- C1: when the table has the numeric survival_days and event columns and
no stage_ covariate columns (every observation in the reference group),
fit still succeeds and returns a null model with an empty coefficient
list. -/
theorem C1_zero_covariates_fit (t : Table) (dur ev : List Val)
    (hdur : t.cols.lookup "survival_days" = some dur)
    (hev : t.cols.lookup "event" = some ev)
    (hne : dur ≠ []) (hnumd : dur.all isNumV = true) (hnume : ev.all isNumV = true)
    (hcov : covarNames t = []) :
    ∃ (m : FittedModel) (t2 : Table),
      fitBasic t = Except.ok (m, [], t2) ∧ m.params = [] := by
  have hcc : coerceCols t.cols = Except.ok t.cols := by
    apply coerceCols_id
    intro p hp hpred v hv
    exfalso
    have hmem : p.fst ∈ (t.cols.map Prod.fst).filter
        (fun n => pyStartsWith n "stage_" && n != "stage_group") := by
      rw [List.mem_filter]
      exact ⟨List.mem_map_of_mem Prod.fst hp, hpred⟩
    rw [show (t.cols.map Prod.fst).filter
        (fun n => pyStartsWith n "stage_" && n != "stage_group") = covarNames t from rfl,
      hcov] at hmem
    cases hmem
  have hgd : getColE { cols := t.cols } "survival_days" = Except.ok dur := by
    unfold getColE
    show (match t.cols.lookup "survival_days" with
      | some vs => Except.ok vs
      | none => Except.error ("KeyError: " ++ "survival_days")) = _
    rw [hdur]
  have hge : getColE { cols := t.cols } "event" = Except.ok ev := by
    unfold getColE
    show (match t.cols.lookup "event" with
      | some vs => Except.ok vs
      | none => Except.error ("KeyError: " ++ "event")) = _
    rw [hev]
  have hie : dur.isEmpty = false := by
    cases dur with
    | nil => exact absurd rfl hne
    | cons a l => rfl
  have hcf : coxFit dur ev [] = Except.ok { params := [], logLik := 0, cIndex := 0 } := by
    unfold coxFit
    rw [hie, hnumd, hnume]
    simp
  refine ⟨{ params := [], logLik := 0, cIndex := 0 }, { cols := t.cols }, ?_, rfl⟩
  unfold fitBasic
  rw [hcov, hcc]
  dsimp only
  rw [hgd, hge]
  dsimp only [getCovCols]
  rw [hcf]

/-- The table of the C1 witness: one IIIC-reference observation, no stage_
covariate columns. -/
def tblC1 : Table :=
  { cols := [("survival_days", [Val.num 5]), ("event", [Val.num 1])] }

theorem C1_zero_covariates_fit_witness :
    ∃ (m : FittedModel) (t2 : Table),
      fitBasic tblC1 = Except.ok (m, [], t2) ∧ m.params = [] :=
  C1_zero_covariates_fit tblC1 [Val.num 5] [Val.num 1] (by decide) (by decide)
    (by decide) (by decide) (by decide) (by decide)

/-- C7: when the proportional-hazards diagnostic fails with any error, the
failure is recorded as a message line and the rest of the report (the
coefficient lines, the concordance index, log-likelihood and AIC lines
already assembled) is still present: the report in the failure case is
exactly the diagnostic-free report followed by the failure line. -/
theorem C7_diag_failure_isolated (fmt4 fmt3 fmtG : Rat → String)
    (summary : List CovarSummary) (cIndex logLik : Rat) (covars : List String)
    (e : String) (c : CovarSummary) (hc : c ∈ summary) :
    buildReport fmt4 fmt3 fmtG summary cIndex logLik covars (Except.error e)
      = buildReport fmt4 fmt3 fmtG summary cIndex logLik covars (Except.ok [])
        ++ ["PH検定実行失敗: " ++ e]
    ∧ coefLine fmt4 fmt3 fmtG c ∈
        buildReport fmt4 fmt3 fmtG summary cIndex logLik covars (Except.error e)
    ∧ ("C-index: " ++ fmt3 cIndex) ∈
        buildReport fmt4 fmt3 fmtG summary cIndex logLik covars (Except.error e)
    ∧ ("Log-likelihood: " ++ fmt3 logLik) ∈
        buildReport fmt4 fmt3 fmtG summary cIndex logLik covars (Except.error e)
    ∧ ("AIC (approx): " ++ fmt3 (-2 * logLik + 2 * (covars.length : Rat))) ∈
        buildReport fmt4 fmt3 fmtG summary cIndex logLik covars (Except.error e) := by
  refine ⟨?_, ?_, ?_, ?_, ?_⟩
  · simp [buildReport]
  · unfold buildReport
    exact List.mem_append_left _
      (List.mem_append_left _ (List.mem_append_right _ (List.mem_map_of_mem _ hc)))
  · unfold buildReport
    refine List.mem_append_left _ (List.mem_append_right _ ?_)
    simp
  · unfold buildReport
    refine List.mem_append_left _ (List.mem_append_right _ ?_)
    simp
  · unfold buildReport
    refine List.mem_append_left _ (List.mem_append_right _ ?_)
    simp

/-- A constant formatter used by report witnesses. -/
def cfmt : Rat → String := fun _ => "fmt"

/-- A concrete summary row used by the C7 witness. -/
def csC7 : CovarSummary :=
  { name := "stage_IV_vs_IIIC", coef := 1, hr := 2, ciLower := 1, ciUpper := 3, p := 0 }

theorem C7_diag_failure_witness :
    coefLine cfmt cfmt cfmt csC7 ∈
      buildReport cfmt cfmt cfmt [csC7] 0 0 [] (Except.error "numerical failure")
    ∧ ("C-index: " ++ cfmt 0) ∈
      buildReport cfmt cfmt cfmt [csC7] 0 0 [] (Except.error "numerical failure") :=
  ⟨(C7_diag_failure_isolated cfmt cfmt cfmt [csC7] 0 0 [] "numerical failure" csC7
      (by decide)).2.1,
   (C7_diag_failure_isolated cfmt cfmt cfmt [csC7] 0 0 [] "numerical failure" csC7
      (by decide)).2.2.1⟩

/-- C9: for every successfully fitted model, the AIC line of the report
shows exactly -2 times the model's partial log-likelihood plus 2 times the
number of covariates. -/
theorem C9_aic_formula (fmt4 fmt3 fmtG : Rat → String) (t : Table)
    (m : FittedModel) (covs : List String) (t2 : Table)
    (summary : List CovarSummary) (diag : Except String (List String))
    (hfit : fitBasic t = Except.ok (m, covs, t2)) :
    ("AIC (approx): " ++ fmt3 (-2 * m.logLik + 2 * (covs.length : Rat)))
      ∈ buildReport fmt4 fmt3 fmtG summary m.cIndex m.logLik covs diag := by
  unfold buildReport
  refine List.mem_append_left _ (List.mem_append_right _ ?_)
  simp

/-- The table of the C9 witness. -/
def tblC9 : Table :=
  { cols := [("survival_days", [Val.num 7]), ("event", [Val.num 1])] }

/-- The model fitted on tblC9. -/
def mC9 : FittedModel := { params := [], logLik := 0, cIndex := 0 }

theorem C9_aic_formula_witness :
    ("AIC (approx): " ++ cfmt (-2 * mC9.logLik + 2 * (([] : List String).length : Rat)))
      ∈ buildReport cfmt cfmt cfmt [] mC9.cIndex mC9.logLik [] (Except.ok []) :=
  C9_aic_formula cfmt cfmt cfmt tblC9 mC9 [] tblC9 [] (Except.ok []) rfl

/-- C10: the cohort summary computes censored as total minus the sum of the
numerically coerced event column, so a row with a missing or unparseable
event indicator is counted as censored, not excluded, and the total
observation count includes rows with missing stage. -/
theorem C10_censored_accounting :
    (∀ (rows : List RawRow) (r : RawRow), toNumCoerce r.event = none →
        sumTotal (rows ++ [r]) = sumTotal rows + 1
        ∧ sumEvents (rows ++ [r]) = sumEvents rows
        ∧ sumCensored (rows ++ [r]) = sumCensored rows + 1)
    ∧ (∀ (rows : List RawRow) (r : RawRow),
        r.figo_stage = Val.na ∨ r.figo_stage = Val.str "" →
        sumTotal (rows ++ [r]) = sumTotal rows + 1)
    ∧ (∀ rows : List RawRow, sumCensored rows = (rows.length : Int) - sumEvents rows) := by
  refine ⟨?_, ?_, ?_⟩
  · intro rows r hr
    have ht : sumTotal (rows ++ [r]) = sumTotal rows + 1 := by simp [sumTotal]
    have hfm : (rows ++ [r]).filterMap (fun x => toNumCoerce x.event)
        = rows.filterMap (fun x => toNumCoerce x.event) := by
      rw [List.filterMap_append]
      simp [hr]
    have hev : sumEvents (rows ++ [r]) = sumEvents rows := by
      unfold sumEvents
      rw [hfm]
    refine ⟨ht, hev, ?_⟩
    unfold sumCensored
    rw [ht, hev]
    push_cast
    ring
  · intro rows r _
    simp [sumTotal]
  · intro rows
    rfl

/-- A row with a missing stage and an unparseable event indicator, used by
the C10 witness. -/
def rC10 : RawRow := { figo_stage := Val.na, survival_days := Val.num 1, event := Val.str "abc" }

theorem C10_censored_accounting_witness :
    sumTotal ([] ++ [rC10]) = sumTotal [] + 1
    ∧ sumEvents ([] ++ [rC10]) = sumEvents []
    ∧ sumCensored ([] ++ [rC10]) = sumCensored [] + 1 :=
  C10_censored_accounting.1 [] rC10 (by decide)

theorem prepStep_none_of_na {r : RawRow} (h : r.survival_days = Val.na) :
    prepStep r = none := by
  have hsv : (addGroup (stageFixRow r)).survival_days = Val.na := h
  unfold prepStep
  cases hfb : ((stageFixRow r).figo_stage == Val.na) with
  | true => simp [hfb]
  | false =>
      simp only [hfb, Bool.false_eq_true, if_false]
      unfold coerceRow
      rw [hsv]
      rfl

theorem filterMap_prepStep_prune (l : List RawRow) :
    l.filterMap prepStep
      = (l.filter (fun x => x.survival_days != Val.na)).filterMap prepStep := by
  induction l with
  | nil => rfl
  | cons a l ih =>
      by_cases h : a.survival_days = Val.na
      · have hn := prepStep_none_of_na h
        simp [List.filter_cons, h, List.filterMap_cons, hn, ih]
      · have hb : (a.survival_days != Val.na) = true := by simp [bne_iff_ne, h]
        rw [List.filter_cons, if_pos hb, List.filterMap_cons, List.filterMap_cons]
        cases hp : prepStep a with
        | none => exact ih
        | some b => rw [ih]

theorem colNums_filter_na (xs : List Val) :
    colNums (xs.filter (fun v => v != Val.na)) = colNums xs
    ∧ colHasStr (xs.filter (fun v => v != Val.na)) = colHasStr xs := by
  induction xs with
  | nil => exact ⟨rfl, rfl⟩
  | cons v xs ih =>
      cases v with
      | na => simpa [colNums, colHasStr, List.filter_cons, hasStrV] using ih
      | num q =>
          constructor
          · simpa [colNums, List.filter_cons, List.filterMap_cons] using ih.1
          · simpa [colHasStr, List.filter_cons, hasStrV] using ih.2
      | str s =>
          constructor
          · simpa [colNums, List.filter_cons, List.filterMap_cons] using ih.1
          · simp [colHasStr, List.filter_cons, hasStrV]

theorem survCells_filter (rows : List RawRow) :
    survCells (rows.filter (fun x => x.survival_days != Val.na))
      = (survCells rows).filter (fun v => v != Val.na) := by
  unfold survCells
  induction rows with
  | nil => rfl
  | cons a rows ih =>
      by_cases h : a.survival_days = Val.na
      · simp only [List.filter_cons, List.map_cons, h, bne_self_eq_false,
          Bool.false_eq_true, if_false]
        exact ih
      · have hb : (a.survival_days != Val.na) = true := bne_iff_ne.mpr h
        simp only [List.filter_cons, List.map_cons, hb, if_true, List.map_cons]
        rw [ih]

theorem map_stageFix_filter (rows : List RawRow) :
    (rows.filter (fun x => x.survival_days != Val.na)).map stageFixRow
      = (rows.map stageFixRow).filter (fun x => x.survival_days != Val.na) := by
  induction rows with
  | nil => rfl
  | cons a rows ih =>
      have hkeep : (stageFixRow a).survival_days = a.survival_days := rfl
      by_cases h : a.survival_days = Val.na
      · have hb : (a.survival_days != Val.na) = false := by simp [bne_iff_ne, h]
        rw [List.map_cons, List.filter_cons, List.filter_cons, hkeep, hb, if_neg (by simp),
          if_neg (by simp)]
        exact ih
      · have hb : (a.survival_days != Val.na) = true := by simp [bne_iff_ne, h]
        rw [List.map_cons, List.filter_cons, List.filter_cons, hkeep, hb, if_pos (by simp),
          if_pos (by simp), List.map_cons]
        exact congrArg (stageFixRow a :: ·) ih

theorem seriesMedian_congr {xs ys : List Val} (h1 : colHasStr xs = colHasStr ys)
    (h2 : colNums xs = colNums ys) : seriesMedian xs = seriesMedian ys := by
  unfold seriesMedian
  rw [h1, h2]

theorem seriesMin_congr {xs ys : List Val} (h1 : colHasStr xs = colHasStr ys)
    (h2 : colNums xs = colNums ys) : seriesMin xs = seriesMin ys := by
  unfold seriesMin
  rw [h1, h2]

theorem seriesMax_congr {xs ys : List Val} (h1 : colHasStr xs = colHasStr ys)
    (h2 : colNums xs = colNums ys) : seriesMax xs = seriesMax ys := by
  unfold seriesMax
  rw [h1, h2]

theorem groupSurvCells_prune (rows : List RawRow) (key : Val) :
    colNums (groupSurvCells (rows.filter (fun x => x.survival_days != Val.na)) key)
      = colNums (groupSurvCells rows key)
    ∧ colHasStr (groupSurvCells (rows.filter (fun x => x.survival_days != Val.na)) key)
      = colHasStr (groupSurvCells rows key) := by
  unfold groupSurvCells
  rw [map_stageFix_filter]
  have hcomm : ((rows.map stageFixRow).filter (fun x => x.survival_days != Val.na)).filter
        (fun r => r.figo_stage == key)
      = (((rows.map stageFixRow).filter (fun r => r.figo_stage == key)).filter
        (fun x => x.survival_days != Val.na)) := by
    rw [List.filter_filter, List.filter_filter]
    apply List.filter_congr
    intro x _
    exact Bool.and_comm _ _
  rw [hcomm, survCells_filter]
  exact colNums_filter_na _

/-- C8: a row whose survival_days cell is missing after ingestion (in
particular the literal CSV string N/A, which pandas read_csv turns into
NaN) is excluded from the prepared output of prepare and contributes
nothing to the cohort summary's survival-duration statistics, overall and
per stage: every statistic equals the one computed with all such rows
dropped. -/
theorem C8_na_survival_excluded :
    (∀ (cells : List String) (i : Nat), cells.get? i = some "N/A" →
        (readCsvCol cells).get? i = some Val.na)
    ∧ (∀ (rows : List RawRow) (r : RawRow), r ∈ rows → r.survival_days = Val.na →
        (prepare rows).rows
            = (prepare (rows.filter (fun x => x.survival_days != Val.na))).rows
        ∧ overallMedianStat rows
            = overallMedianStat (rows.filter (fun x => x.survival_days != Val.na))
        ∧ overallMinStat rows
            = overallMinStat (rows.filter (fun x => x.survival_days != Val.na))
        ∧ overallMaxStat rows
            = overallMaxStat (rows.filter (fun x => x.survival_days != Val.na))
        ∧ ∀ key : Val,
            groupMedianStat rows key
              = groupMedianStat (rows.filter (fun x => x.survival_days != Val.na)) key
            ∧ groupMinStat rows key
              = groupMinStat (rows.filter (fun x => x.survival_days != Val.na)) key
            ∧ groupMaxStat rows key
              = groupMaxStat (rows.filter (fun x => x.survival_days != Val.na)) key) := by
  constructor
  · intro cells i h
    unfold readCsvCol
    by_cases hall : cells.all (fun s => naTokens.contains s || (parseNum s).isSome) = true
    · rw [if_pos hall, List.get?_map, h]
      decide
    · rw [if_neg hall, List.get?_map, h]
      decide
  · intro rows r hm hna
    have hrows : (prepare rows).rows
        = (prepare (rows.filter (fun x => x.survival_days != Val.na))).rows := by
      rw [prepare_rows_eq, prepare_rows_eq]
      exact filterMap_prepStep_prune rows
    have hsc := survCells_filter rows
    have hcf := colNums_filter_na (survCells rows)
    have hstr : colHasStr (survCells rows)
        = colHasStr (survCells (rows.filter (fun x => x.survival_days != Val.na))) := by
      rw [hsc]
      exact hcf.2.symm
    have hnums : colNums (survCells rows)
        = colNums (survCells (rows.filter (fun x => x.survival_days != Val.na))) := by
      rw [hsc]
      exact hcf.1.symm
    refine ⟨hrows, seriesMedian_congr hstr hnums, seriesMin_congr hstr hnums,
      seriesMax_congr hstr hnums, ?_⟩
    intro key
    have hg := groupSurvCells_prune rows key
    exact ⟨seriesMedian_congr hg.2.symm hg.1.symm, seriesMin_congr hg.2.symm hg.1.symm,
      seriesMax_congr hg.2.symm hg.1.symm⟩

/-- The rows of the C8 witness: the first row's survival duration is
missing (as produced by read_csv from the string N/A). -/
def rowsC8 : List RawRow :=
  [{ figo_stage := Val.str "Stage IV", survival_days := Val.na, event := Val.num 1 },
   { figo_stage := Val.str "Stage IIIC", survival_days := Val.num 5, event := Val.num 0 }]

theorem C8_na_survival_excluded_witness :
    (readCsvCol ["100", "N/A"]).get? 1 = some Val.na
    ∧ (prepare rowsC8).rows
        = (prepare (rowsC8.filter (fun x => x.survival_days != Val.na))).rows :=
  ⟨C8_na_survival_excluded.1 ["100", "N/A"] 1 (by decide),
   (C8_na_survival_excluded.2 rowsC8
      { figo_stage := Val.str "Stage IV", survival_days := Val.na, event := Val.num 1 }
      (by decide) rfl).1⟩

end FigoSurv
